import Mathlib

/-!
Shallow embedding of `annotationframeworkclient/chunkedgraph.py`:
the request-construction and response-decoding layer of the chunked-graph
HTTP client.  Python strings that are split and joined character-wise are
modelled as `List Char`; Python dicts that are written in insertion order are
modelled as association lists; fallible paths return `Except` / `Option`.
-/

namespace ChunkedGraph

/-- A JSON value, as produced by `response.json()`.  JSON object keys arrive
as strings. -/
inductive Json where
  | null : Json
  | bool : Bool → Json
  | num : Int → Json
  | str : String → Json
  | arr : List Json → Json
  | obj : List (String × Json) → Json

/-- The error taxonomy of the client layer: non-success HTTP statuses
(`requests.HTTPError` from `raise_for_status`), shape mismatches while
decoding a body, numeric range failures of the numpy conversions, and
unsupported-version failures at construction time. -/
inductive ClientError where
  | httpError : Nat → ClientError
  | decodeError : ClientError
  | overflowError : ClientError
  | configurationError : ClientError
deriving DecidableEq

/-- The transport collaborator's answer: an HTTP status, the raw body bytes
(`response.content`), and what `response.json()` yields on that body
(`none` when the body is not valid JSON). -/
structure Response where
  status : Nat
  content : List Nat
  json : Option Json

/-- A value bound to a URL-template placeholder in the per-call field
mapping (`table_id`, `supervoxel_id`, `root_id`, `node_id`). -/
inductive FieldVal where
  | strv : String → FieldVal
  | idv : Nat → FieldVal
  | nullv : FieldVal
deriving DecidableEq

/-- A query-parameter value: a number (epoch timestamp), a formatted bounds
string, or a boolean flag. -/
inductive ParamVal where
  | num : Int → ParamVal
  | chars : List Char → ParamVal
  | boolv : Bool → ParamVal
deriving DecidableEq

inductive Method where
  | get : Method
  | post : Method
deriving DecidableEq

/-- The request handed to the transport: which endpoint template is used,
the field mapping substituted into it, the query parameters (`none` when the
source passes `params=None`), and the optional JSON body. -/
structure Request where
  templateKey : String
  method : Method
  urlMapping : List (String × FieldVal)
  params : Option (List (String × ParamVal))
  jsonBody : Option Json

/-- A per-version endpoint template mapping, supplied by the external
endpoint registry collaborator. -/
abbrev TemplateSet := List (String × String)

/-- A naive `datetime.datetime` value. -/
structure PyDatetime where
  year : Nat
  month : Nat
  day : Nat
  hour : Nat
  minute : Nat
  second : Nat
  microsecond : Nat
deriving DecidableEq

/-- The calendar fields kept by `datetime.timetuple()`; the microsecond
field of the datetime is dropped. -/
structure TimeTuple where
  year : Int
  month : Int
  day : Int
  hour : Int
  minute : Int
  second : Int
deriving DecidableEq

/-- The session configuration held by a `ChunkedGraphClientLegacy` object:
the default URL field mapping, the optional default timestamp, the table
name, and the resolved endpoint template set. -/
structure ClientState where
  defaultUrlMapping : List (String × FieldVal)
  defaultTimestamp : Option PyDatetime
  tableName : Option String
  endpoints : TemplateSet

/-- Python dict assignment `d[k] = v` on an association list: replace the
binding if the key is present, otherwise append it. -/
def dictSet {α : Type} : List (String × α) → String → α → List (String × α)
  | [], k, v => [(k, v)]
  | (k', v') :: rest, k, v =>
    if k' = k then (k, v) :: rest else (k', v') :: dictSet rest k v

/-- Python dict lookup `d.get(k)` on an association list. -/
def alistGet {α : Type} : List (String × α) → String → Option α
  | [], _ => none
  | (k', v) :: rest, k => if k' = k then some v else alistGet rest k

/-- `datetime.timetuple()`: the calendar fields, microseconds dropped. -/
def timetuple (t : PyDatetime) : TimeTuple :=
  ⟨(t.year : Int), (t.month : Int), (t.day : Int), (t.hour : Int),
   (t.minute : Int), (t.second : Int)⟩

/-- Days from 1970-01-01 of a proleptic-Gregorian civil date (the standard
era-based conversion with truncating division, as used by calendar
conversion routines). -/
def days_from_civil (y m d : Int) : Int :=
  let yy := if m ≤ 2 then y - 1 else y
  let era := (if 0 ≤ yy then yy else yy - 399) / 400
  let yoe := yy - era * 400
  let doy := (153 * (if 2 < m then m - 3 else m + 9) + 2) / 5 + d - 1
  let doe := yoe * 365 + yoe / 4 - yoe / 100 + doy
  era * 146097 + doe - 719468

/-- `calendar.timegm`-style conversion: the Unix epoch seconds obtained by
reading the calendar fields of the tuple as a UTC instant. -/
def timegm (t : TimeTuple) : Int :=
  days_from_civil t.year t.month t.day * 86400
    + t.hour * 3600 + t.minute * 60 + t.second

/-- Models CPython `time.mktime`: the tuple's calendar fields are read as
*local* time, so the epoch value is the UTC calendar conversion minus the
local zone's offset east of UTC (in seconds, DST folded into the offset).
`tzOffset = 0` is a process running in UTC. -/
def mktime (tzOffset : Int) (t : TimeTuple) : Int :=
  timegm t - tzOffset

/-- The decimal digit character for `d < 10`, i.e. `chr(48 + d)`. -/
def digitChar (d : Nat) : Char := Char.ofNat (48 + d)

/-- Fuel-driven decimal rendering of a natural number, most significant
digit first; `acc` collects the digits already produced to the right. -/
def natToCharsAux : Nat → Nat → List Char → List Char
  | 0, _, acc => acc
  | fuel + 1, n, acc =>
    if n < 10 then digitChar n :: acc
    else natToCharsAux fuel (n / 10) (digitChar (n % 10) :: acc)

/-- Python `str(n)` for a natural number: its decimal digits. -/
def natToChars (n : Nat) : List Char := natToCharsAux (n + 1) n []

/-- Python `str(i)` for an integer: a minus sign followed by the decimal
digits when negative. -/
def intToChars (i : Int) : List Char :=
  if i < 0 then '-' :: natToChars i.natAbs else natToChars i.toNat

/-- Python's `sep.join` of a list of strings (as character lists). -/
def joinSep (sep : Char) : List (List Char) → List Char
  | [] => []
  | [x] => x
  | x :: xs => x ++ sep :: joinSep sep xs

/-- Python `s.split(sep)` for a one-character separator: splitting the empty
string gives `[""]`, and every separator occurrence starts a new piece. -/
def splitOnChar (sep : Char) : List Char → List (List Char)
  | [] => [[]]
  | c :: rest =>
    if c = sep then [] :: splitOnChar sep rest
    else
      match splitOnChar sep rest with
      | [] => [[c]]
      | t :: ts => (c :: t) :: ts

/-- Whether a character is a decimal digit. -/
def isDigitChar (c : Char) : Bool := 48 ≤ c.toNat && c.toNat ≤ 57

/-- Parse a non-empty all-digit string as a natural number. -/
def parseNatChars (cs : List Char) : Option Nat :=
  if cs = [] then none
  else if cs.all isDigitChar then
    some (cs.foldl (fun a c => a * 10 + (c.toNat - 48)) 0)
  else none

/-- Python `int(s)` on a canonical decimal string: an optional leading
minus sign followed by digits; anything else raises `ValueError` (`none`). -/
def pyInt : List Char → Option Int
  | [] => none
  | c :: rest =>
    if c = '-' then Option.map (fun n => -(n : Int)) (parseNatChars rest)
    else Option.map (fun n => (n : Int)) (parseNatChars (c :: rest))

/-- `package_bounds` (chunkedgraph.py lines 15-20): render each axis pair
with a `"-"` join of the decimal strings and join the three axis strings with
`"_"`. -/
def package_bounds (bounds : List (List Int)) : List Char :=
  joinSep '_' (bounds.map (fun b => joinSep '-' (b.map intToChars)))

/-- Models `np.int64` applied to one Python integer: the value itself when
it fits the signed 64-bit range, otherwise an `OverflowError` (`none`). -/
def np_int64 (n : Int) : Option Int :=
  if -9223372036854775808 ≤ n ∧ n < 9223372036854775808 then some n else none

/-- Models `np.int64` applied elementwise to a JSON list: every element must
be a number fitting the signed 64-bit range. -/
def np_int64_array : List Json → Option (List Int)
  | [] => some []
  | Json.num n :: rest =>
    match np_int64 n, np_int64_array rest with
    | some v, some vs => some (v :: vs)
    | _, _ => none
  | _ :: _ => none

/-- Decode a byte list into unsigned 64-bit values, eight consecutive bytes
per value, first byte least significant (little endian); a trailing group of
fewer than eight bytes is dropped (callers check divisibility first). -/
def chunksLE64 : List Nat → List Nat
  | b0 :: b1 :: b2 :: b3 :: b4 :: b5 :: b6 :: b7 :: rest =>
    (b0 + 256 * (b1 + 256 * (b2 + 256 * (b3 + 256 * (b4 + 256 * (b5 + 256 * (b6 + 256 * b7)))))))
      :: chunksLE64 rest
  | _ => []

/-- Models `np.frombuffer(bytes, dtype=np.uint64)` on a little-endian
platform: a `ValueError` (`none`) unless the byte count is a multiple of the
8-byte item size, otherwise the little-endian 64-bit groups. -/
def frombuffer_uint64 (bs : List Nat) : Option (List Nat) :=
  if bs.length % 8 = 0 then some (chunksLE64 bs) else none

/-- An 8-byte group given as an explicit tuple. -/
abbrev Tup8 := Nat × Nat × Nat × Nat × Nat × Nat × Nat × Nat

/-- The byte list of one 8-byte group. -/
def bytes8 (t : Tup8) : List Nat :=
  [t.1, t.2.1, t.2.2.1, t.2.2.2.1, t.2.2.2.2.1, t.2.2.2.2.2.1,
   t.2.2.2.2.2.2.1, t.2.2.2.2.2.2.2]

/-- The unsigned 64-bit value encoded little-endian by one 8-byte group. -/
def le64of8 (t : Tup8) : Nat :=
  t.1 + 256 * (t.2.1 + 256 * (t.2.2.1 + 256 * (t.2.2.2.1 + 256 * (t.2.2.2.2.1
    + 256 * (t.2.2.2.2.2.1 + 256 * (t.2.2.2.2.2.2.1 + 256 * t.2.2.2.2.2.2.2))))))

/-- `requests.Response.raise_for_status`: raise `HTTPError` carrying the
status for any 4xx or 5xx status, otherwise succeed. -/
def raise_for_status (r : Response) : Except ClientError Unit :=
  if 400 ≤ r.status ∧ r.status < 600 then Except.error (ClientError.httpError r.status)
  else Except.ok ()

/-- The `default_url_mapping` property (lines 82-84): returns
`self._default_url_mapping.copy()`; with value semantics the copy is an
independent value, so per-call writes never reach the session's mapping. -/
def default_url_mapping (st : ClientState) : List (String × FieldVal) :=
  st.defaultUrlMapping

/-- `get_root_id` request construction (lines 90-123).  `tzOffset` is the
process-local timezone offset consumed by `time.mktime`; `utcnow` is what
`datetime.datetime.utcnow()` returns during the call.  Lines 115-116 of the
source re-check `timestamp is None` even though lines 105-109 always leave
it set; the translation keeps both steps. -/
def get_root_id (st : ClientState) (supervoxel_id : Nat)
    (timestamp : Option PyDatetime) (tzOffset : Int) (utcnow : PyDatetime) :
    Request × ClientState :=
  let ts1 : Option PyDatetime :=
    match timestamp with
    | none =>
      match st.defaultTimestamp with
      | some d => some d
      | none => some utcnow
    | some t => some t
  let endpoint_mapping :=
    dictSet (default_url_mapping st) "supervoxel_id" (FieldVal.idv supervoxel_id)
  let ts2 : Option PyDatetime :=
    match ts1 with
    | none => st.defaultTimestamp
    | some t => some t
  let query_d : Option (List (String × ParamVal)) :=
    match ts2 with
    | some t => some [("timestamp", ParamVal.num (mktime tzOffset (timetuple t)))]
    | none => none
  ({ templateKey := "handle_root", method := Method.get,
     urlMapping := endpoint_mapping, params := query_d, jsonBody := none }, st)

/-- `get_root_id` response handling (lines 125-126): `raise_for_status`,
then `np.int64(response.json()['root_id'])`. -/
def get_root_id_decode (r : Response) : Except ClientError Int :=
  match raise_for_status r with
  | Except.error e => Except.error e
  | Except.ok _ =>
    match r.json with
    | some (Json.obj fields) =>
      match alistGet fields "root_id" with
      | some (Json.num n) =>
        match np_int64 n with
        | some v => Except.ok v
        | none => Except.error ClientError.overflowError
      | _ => Except.error ClientError.decodeError
    | _ => Except.error ClientError.decodeError

/-- `get_merge_log` request construction (lines 128-144). -/
def get_merge_log (st : ClientState) (root_id : Nat) : Request × ClientState :=
  let endpoint_mapping :=
    dictSet (default_url_mapping st) "root_id" (FieldVal.idv root_id)
  ({ templateKey := "merge_log", method := Method.post,
     urlMapping := endpoint_mapping, params := none,
     jsonBody := some (Json.arr [Json.num (root_id : Int)]) }, st)

/-- `get_merge_log` response handling (lines 146-147): `raise_for_status`,
then the JSON body verbatim. -/
def get_merge_log_decode (r : Response) : Except ClientError Json :=
  match raise_for_status r with
  | Except.error e => Except.error e
  | Except.ok _ =>
    match r.json with
    | some j => Except.ok j
    | none => Except.error ClientError.decodeError

/-- `get_change_log` request construction (lines 149-165). -/
def get_change_log (st : ClientState) (root_id : Nat) : Request × ClientState :=
  let endpoint_mapping :=
    dictSet (default_url_mapping st) "root_id" (FieldVal.idv root_id)
  ({ templateKey := "change_log", method := Method.post,
     urlMapping := endpoint_mapping, params := none,
     jsonBody := some (Json.arr [Json.num (root_id : Int)]) }, st)

/-- `get_change_log` response handling (lines 167-168). -/
def get_change_log_decode (r : Response) : Except ClientError Json :=
  match raise_for_status r with
  | Except.error e => Except.error e
  | Except.ok _ =>
    match r.json with
    | some j => Except.ok j
    | none => Except.error ClientError.decodeError

/-- `get_leaves` request construction (lines 170-193): the `bounds` query
parameter is added only when bounds are given. -/
def get_leaves (st : ClientState) (root_id : Nat)
    (bounds : Option (List (List Int))) : Request × ClientState :=
  let endpoint_mapping :=
    dictSet (default_url_mapping st) "root_id" (FieldVal.idv root_id)
  let query_d : List (String × ParamVal) :=
    match bounds with
    | some b => [("bounds", ParamVal.chars (package_bounds b))]
    | none => []
  ({ templateKey := "leaves_from_root", method := Method.get,
     urlMapping := endpoint_mapping, params := some query_d,
     jsonBody := none }, st)

/-- `get_leaves` response handling (lines 195-196): `raise_for_status`, then
`np.int64(response.json()['leaf_ids'], dtype=np.int64)` — the `leaf_ids`
field converted elementwise to signed 64-bit. -/
def get_leaves_decode (r : Response) : Except ClientError (List Int) :=
  match raise_for_status r with
  | Except.error e => Except.error e
  | Except.ok _ =>
    match r.json with
    | some (Json.obj fields) =>
      match alistGet fields "leaf_ids" with
      | some (Json.arr xs) =>
        match np_int64_array xs with
        | some vs => Except.ok vs
        | none => Except.error ClientError.overflowError
      | _ => Except.error ClientError.decodeError
    | _ => Except.error ClientError.decodeError

/-- `get_children` request construction (lines 198-215). -/
def get_children (st : ClientState) (node_id : Nat) : Request × ClientState :=
  let endpoint_mapping :=
    dictSet (default_url_mapping st) "node_id" (FieldVal.idv node_id)
  ({ templateKey := "handle_children", method := Method.post,
     urlMapping := endpoint_mapping, params := none, jsonBody := none }, st)

/-- `get_children` response handling (lines 217-218): `raise_for_status`,
then `np.frombuffer(response.content, dtype=np.uint64)`. -/
def get_children_decode (r : Response) : Except ClientError (List Nat) :=
  match raise_for_status r with
  | Except.error e => Except.error e
  | Except.ok _ =>
    match frombuffer_uint64 r.content with
    | some vs => Except.ok vs
    | none => Except.error ClientError.decodeError

/-- `get_contact_sites` request construction (lines 220-243). -/
def get_contact_sites (st : ClientState) (root_id : Nat)
    (bounds : Option (List (List Int))) (calc_partners : Bool) :
    Request × ClientState :=
  let endpoint_mapping :=
    dictSet (default_url_mapping st) "root_id" (FieldVal.idv root_id)
  let query_d : List (String × ParamVal) :=
    (match bounds with
     | some b => [("bounds", ParamVal.chars (package_bounds b))]
     | none => []) ++ [("partners", ParamVal.boolv calc_partners)]
  ({ templateKey := "contact_sites", method := Method.post,
     urlMapping := endpoint_mapping, params := some query_d,
     jsonBody := some (Json.arr [Json.num (root_id : Int)]) }, st)

/-- Convert the keys of a JSON object with `int(k)`, keeping values; a
non-numeric key raises `ValueError` (`none`). -/
def int_keys : List (String × Json) → Option (List (Int × Json))
  | [] => some []
  | (k, v) :: rest =>
    match pyInt k.data, int_keys rest with
    | some i, some m => some ((i, v) :: m)
    | _, _ => none

/-- `get_contact_sites` response handling (lines 244-245): the source calls
`response.json()` directly, with **no** `raise_for_status`, then rebuilds
the dict as `{int(k): v for k, v in contact_d.items()}`. -/
def get_contact_sites_decode (r : Response) :
    Except ClientError (List (Int × Json)) :=
  match r.json with
  | some (Json.obj fields) =>
    match int_keys fields with
    | some m => Except.ok m
    | none => Except.error ClientError.decodeError
  | _ => Except.error ClientError.decodeError

/-- The requested API version: `'latest'` or an explicit integer. -/
inductive VersionKey where
  | latest : VersionKey
  | v : Nat → VersionKey
deriving DecidableEq

/-- The single facade implementation class of the source,
`ChunkedGraphClientLegacy`. -/
inductive ClientImpl where
  | legacy : ClientImpl
deriving DecidableEq

/-- `client_mapping` (lines 251-253): versions 0, 1 and `'latest'` all map
to `ChunkedGraphClientLegacy`; any other key is a `KeyError` (`none`). -/
def client_mapping : VersionKey → Option ClientImpl
  | VersionKey.v 0 => some ClientImpl.legacy
  | VersionKey.v 1 => some ClientImpl.legacy
  | VersionKey.latest => some ClientImpl.legacy
  | _ => none

/-- Lookup of an integer key in the version registry. -/
def lookupNat : List (Nat × TemplateSet) → Nat → Option TemplateSet
  | [], _ => none
  | (k, v) :: rest, n => if k = n then some v else lookupNat rest n

/-- The maximum integer key of the version registry, when non-empty. -/
def maxKey : List (Nat × TemplateSet) → Option Nat
  | [] => none
  | (k, _) :: rest =>
    match maxKey rest with
    | none => some k
    | some m => some (max k m)

/-- Merge version-specific templates over the common ones, version-specific
entries winning on key collision. -/
def mergeTemplates (common specific : TemplateSet) : TemplateSet :=
  specific.foldl (fun acc kv => dictSet acc kv.1 kv.2) common

/-- Modelled from the spec: the version-resolution step of `_api_endpoints`
(defined in `annotationframeworkclient/base.py`, which is not among the
provided sources).  Per spec §4.2: `'latest'` picks the maximum registry
key; an explicit version must be a registry key, otherwise a
`ConfigurationError` ("unsupported API version"). -/
def resolve_api_version (requested : VersionKey)
    (registry : List (Nat × TemplateSet)) : Except ClientError Nat :=
  match requested with
  | VersionKey.latest =>
    match maxKey registry with
    | some m => Except.ok m
    | none => Except.error ClientError.configurationError
  | VersionKey.v n =>
    match lookupNat registry n with
    | some _ => Except.ok n
    | none => Except.error ClientError.configurationError

/-- Modelled from the spec: `_api_endpoints` (from
`annotationframeworkclient/base.py`, not among the provided sources).  It
resolves the effective version and returns the merged template set together
with that version; it performs no network I/O (spec §4.2). -/
def api_endpoints (requested : VersionKey) (registry : List (Nat × TemplateSet))
    (common : TemplateSet) : Except ClientError (TemplateSet × Nat) :=
  match resolve_api_version requested registry with
  | Except.error e => Except.error e
  | Except.ok ver =>
    match lookupNat registry ver with
    | some vts => Except.ok (mergeTemplates common vts, ver)
    | none => Except.error ClientError.configurationError

/-- The `ChunkedGraphClient` factory (lines 23-47): resolve the endpoints
and effective version, look the version up in `client_mapping`, and build
the facade state.  `baseMapping` is the default URL mapping created by the
`ClientBase` constructor (from `base.py`, not among the provided sources);
the legacy constructor then sets its `table_id` entry (line 77).  The whole
construction is pure: no request value is ever produced here. -/
def chunkedGraphClient (tableName : Option String) (requested : VersionKey)
    (registry : List (Nat × TemplateSet)) (common : TemplateSet)
    (baseMapping : List (String × FieldVal)) (timestamp : Option PyDatetime) :
    Except ClientError (ClientImpl × ClientState) :=
  match api_endpoints requested registry common with
  | Except.error e => Except.error e
  | Except.ok (eps, ver) =>
    match client_mapping (VersionKey.v ver) with
    | some impl =>
      let tableField : FieldVal :=
        match tableName with
        | some s => FieldVal.strv s
        | none => FieldVal.nullv
      Except.ok (impl,
        { defaultUrlMapping := dictSet baseMapping "table_id" tableField,
          defaultTimestamp := timestamp, tableName := tableName,
          endpoints := eps })
    | none => Except.error ClientError.configurationError

/-- Version dispatch of `get_root_id`: the class selected by
`client_mapping` determines the implementation. -/
def dispatch_get_root_id : ClientImpl →
    ClientState → Nat → Option PyDatetime → Int → PyDatetime → Request × ClientState
  | ClientImpl.legacy => get_root_id

/-- Version dispatch of `get_merge_log`. -/
def dispatch_get_merge_log : ClientImpl → ClientState → Nat → Request × ClientState
  | ClientImpl.legacy => get_merge_log

/-- Version dispatch of `get_change_log`. -/
def dispatch_get_change_log : ClientImpl → ClientState → Nat → Request × ClientState
  | ClientImpl.legacy => get_change_log

/-- Version dispatch of `get_leaves`. -/
def dispatch_get_leaves : ClientImpl →
    ClientState → Nat → Option (List (List Int)) → Request × ClientState
  | ClientImpl.legacy => get_leaves

/-- Version dispatch of `get_children`. -/
def dispatch_get_children : ClientImpl → ClientState → Nat → Request × ClientState
  | ClientImpl.legacy => get_children

/-- Version dispatch of `get_contact_sites`. -/
def dispatch_get_contact_sites : ClientImpl →
    ClientState → Nat → Option (List (List Int)) → Bool → Request × ClientState
  | ClientImpl.legacy => get_contact_sites

/-- Concatenation of a list of 8-byte groups into one byte list. -/
def bytesOfGroups : List Tup8 → List Nat
  | [] => []
  | t :: ts => bytes8 t ++ bytesOfGroups ts

/-! ### Facts about the decimal rendering used by `package_bounds` -/

theorem digitChar_facts (d : Nat) (h : d < 10) :
    isDigitChar (digitChar d) = true ∧ (digitChar d).toNat - 48 = d ∧
      digitChar d ≠ '_' ∧ digitChar d ≠ '-' := by
  interval_cases d <;> exact ⟨by decide, by decide, by decide, by decide⟩

theorem natToCharsAux_fuel (f₁ : Nat) : ∀ f₂ n acc, n < f₁ → n < f₂ →
    natToCharsAux f₁ n acc = natToCharsAux f₂ n acc := by
  induction f₁ with
  | zero => intro f₂ n acc h₁ _; omega
  | succ f ih =>
    intro f₂ n acc h₁ h₂
    match f₂, h₂ with
    | f' + 1, _ =>
      by_cases hn : n < 10
      · simp [natToCharsAux, hn]
      · have hdiv : n / 10 < n := Nat.div_lt_self (by omega) (by omega)
        simp only [natToCharsAux, if_neg hn]
        exact ih f' (n / 10) _ (by omega) (by omega)

theorem natToCharsAux_acc (f : Nat) : ∀ n acc,
    natToCharsAux f n acc = natToCharsAux f n [] ++ acc := by
  induction f with
  | zero => intro n acc; simp [natToCharsAux]
  | succ f ih =>
    intro n acc
    by_cases hn : n < 10
    · simp [natToCharsAux, hn]
    · simp only [natToCharsAux, if_neg hn]
      rw [ih (n / 10) (digitChar (n % 10) :: acc), ih (n / 10) [digitChar (n % 10)]]
      simp

theorem natToChars_base (n : Nat) (h : n < 10) : natToChars n = [digitChar n] := by
  simp [natToChars, natToCharsAux, h]

theorem natToChars_step (n : Nat) (h : ¬ n < 10) :
    natToChars n = natToChars (n / 10) ++ [digitChar (n % 10)] := by
  have hdiv : n / 10 < n := Nat.div_lt_self (by omega) (by omega)
  unfold natToChars
  rw [show natToCharsAux (n + 1) n [] = natToCharsAux n (n / 10) [digitChar (n % 10)] by
        simp [natToCharsAux, h]]
  rw [natToCharsAux_fuel n (n / 10 + 1) (n / 10) _ (by omega) (by omega)]
  rw [natToCharsAux_acc]

theorem natToChars_mem (n : Nat) : ∀ c ∈ natToChars n, ∃ d, d < 10 ∧ c = digitChar d := by
  induction n using Nat.strong_induction_on with
  | _ n ih =>
    intro c hc
    by_cases h : n < 10
    · rw [natToChars_base n h] at hc
      simp at hc
      exact ⟨n, h, hc⟩
    · rw [natToChars_step n h] at hc
      rcases List.mem_append.mp hc with h1 | h2
      · exact ih (n / 10) (Nat.div_lt_self (by omega) (by omega)) c h1
      · simp at h2
        exact ⟨n % 10, by omega, h2⟩

theorem natToChars_ne_nil (n : Nat) : natToChars n ≠ [] := by
  by_cases h : n < 10
  · rw [natToChars_base n h]; simp
  · rw [natToChars_step n h]; simp

theorem underscore_not_mem_natToChars (n : Nat) : '_' ∉ natToChars n := by
  intro hc
  obtain ⟨d, hd, he⟩ := natToChars_mem n '_' hc
  exact (digitChar_facts d hd).2.2.1 he.symm

theorem dash_not_mem_natToChars (n : Nat) : '-' ∉ natToChars n := by
  intro hc
  obtain ⟨d, hd, he⟩ := natToChars_mem n '-' hc
  exact (digitChar_facts d hd).2.2.2 he.symm

theorem natToChars_all_digits (n : Nat) : (natToChars n).all isDigitChar = true := by
  rw [List.all_eq_true]
  intro c hc
  obtain ⟨d, hd, he⟩ := natToChars_mem n c hc
  rw [he]
  exact (digitChar_facts d hd).1

theorem natToChars_foldl (n : Nat) :
    (natToChars n).foldl (fun a c => a * 10 + (c.toNat - 48)) 0 = n := by
  induction n using Nat.strong_induction_on with
  | _ n ih =>
    by_cases h : n < 10
    · rw [natToChars_base n h]
      simp [(digitChar_facts n h).2.1]
    · rw [natToChars_step n h, List.foldl_append]
      rw [ih (n / 10) (Nat.div_lt_self (by omega) (by omega))]
      simp only [List.foldl_cons, List.foldl_nil]
      rw [(digitChar_facts (n % 10) (by omega)).2.1]
      omega

theorem parseNatChars_natToChars (n : Nat) : parseNatChars (natToChars n) = some n := by
  rw [parseNatChars, if_neg (natToChars_ne_nil n), if_pos (natToChars_all_digits n),
    natToChars_foldl]

theorem pyInt_natToChars (n : Nat) : pyInt (natToChars n) = some (n : Int) := by
  cases h : natToChars n with
  | nil => exact absurd h (natToChars_ne_nil n)
  | cons c rest =>
    have hc : c ≠ '-' := by
      intro he
      exact dash_not_mem_natToChars n (he ▸ (h ▸ List.mem_cons_self c rest))
    rw [pyInt, if_neg hc, ← h, parseNatChars_natToChars]
    rfl

theorem intToChars_natCast (n : Nat) : intToChars (n : Int) = natToChars n := by
  rw [intToChars, if_neg (by exact_mod_cast Int.not_lt.mpr (Int.natCast_nonneg n))]
  simp

/-! ### Facts about `splitOnChar` -/

theorem splitOnChar_ne_nil (sep : Char) (s : List Char) : splitOnChar sep s ≠ [] := by
  cases s with
  | nil => simp [splitOnChar]
  | cons c rest =>
    by_cases hc : c = sep
    · simp [splitOnChar, hc]
    · simp only [splitOnChar, if_neg hc]
      cases splitOnChar sep rest <;> simp

theorem splitOnChar_no_sep (sep : Char) (a : List Char) (h : sep ∉ a) :
    splitOnChar sep a = [a] := by
  induction a with
  | nil => rfl
  | cons c rest ih =>
    have hc : ¬ c = sep := fun he => h (he ▸ List.mem_cons_self c rest)
    rw [splitOnChar, if_neg hc, ih (fun hm => h (List.mem_cons_of_mem c hm))]

theorem splitOnChar_append (sep : Char) (a rest : List Char) (h : sep ∉ a) :
    splitOnChar sep (a ++ sep :: rest) = a :: splitOnChar sep rest := by
  induction a with
  | nil => simp [splitOnChar]
  | cons c t ih =>
    have hc : ¬ c = sep := fun he => h (he ▸ List.mem_cons_self c t)
    have ht : sep ∉ t := fun hm => h (List.mem_cons_of_mem c hm)
    simp only [List.cons_append, splitOnChar, if_neg hc]
    rw [show t.append (sep :: rest) = t ++ sep :: rest from rfl, ih ht]

theorem underscore_not_mem_pair (x y : Nat) :
    '_' ∉ natToChars x ++ '-' :: natToChars y := by
  intro hm
  rcases List.mem_append.mp hm with h | h
  · exact underscore_not_mem_natToChars x h
  · rcases List.mem_cons.mp h with h | h
    · exact absurd h (by decide)
    · exact underscore_not_mem_natToChars y h

theorem splitDash_pair (x y : Nat) :
    splitOnChar '-' (natToChars x ++ '-' :: natToChars y) = [natToChars x, natToChars y] := by
  rw [splitOnChar_append '-' _ _ (dash_not_mem_natToChars x),
    splitOnChar_no_sep '-' _ (dash_not_mem_natToChars y)]

/-! ### Facts about the binary and JSON decode helpers -/

theorem length_bytesOfGroups (gs : List Tup8) :
    (bytesOfGroups gs).length = 8 * gs.length := by
  induction gs with
  | nil => rfl
  | cons t ts ih =>
    simp [bytesOfGroups, bytes8, ih]
    omega

theorem chunksLE64_bytesOfGroups (gs : List Tup8) :
    chunksLE64 (bytesOfGroups gs) = gs.map le64of8 := by
  induction gs with
  | nil => rfl
  | cons t ts ih =>
    obtain ⟨a, b, c, d, e, f, g, h⟩ := t
    simp [bytesOfGroups, bytes8, chunksLE64, le64of8, ih]

theorem int_keys_decimal (ps : List (Nat × Json)) :
    int_keys (ps.map (fun p => (String.mk (natToChars p.1), p.2))) =
      some (ps.map (fun p => ((p.1 : Int), p.2))) := by
  induction ps with
  | nil => rfl
  | cons p ps ih =>
    obtain ⟨n, v⟩ := p
    simp only [List.map_cons, int_keys]
    rw [pyInt_natToChars, ih]

theorem np_int64_array_ok (ns : List Int)
    (h : ∀ n ∈ ns, -9223372036854775808 ≤ n ∧ n < 9223372036854775808) :
    np_int64_array (ns.map Json.num) = some ns := by
  induction ns with
  | nil => rfl
  | cons n ns ih =>
    simp only [List.map_cons, np_int64_array]
    rw [show np_int64 n = some n from by
        simp [np_int64, h n (List.mem_cons_self n ns)]]
    rw [ih (fun m hm => h m (List.mem_cons_of_mem n hm))]

theorem raise_for_status_ok (r : Response) (h : r.status < 400) :
    raise_for_status r = Except.ok () := by
  rw [raise_for_status, if_neg (by omega : ¬ (400 ≤ r.status ∧ r.status < 600))]

theorem raise_for_status_fail (r : Response) (h1 : 400 ≤ r.status) (h2 : r.status < 600) :
    raise_for_status r = Except.error (ClientError.httpError r.status) := by
  rw [raise_for_status, if_pos ⟨h1, h2⟩]

/-! ### Claim theorems -/

/-- C1: the claim says every operation raises an `HttpError` on a
non-success HTTP status without decoding the body.  That holds for
`get_root_id`, `get_merge_log`, `get_change_log`, `get_leaves` and
`get_children` (first conjunct, for every body), but `get_contact_sites`
never checks the status: at the failing input (status 500, JSON body
`{"1": null}`) it returns the decoded mapping instead of an error (second
conjunct). -/
theorem c1_status_check_coverage (r : Response)
    (h1 : 400 ≤ r.status) (h2 : r.status < 600) :
    (get_root_id_decode r = Except.error (ClientError.httpError r.status) ∧
     get_merge_log_decode r = Except.error (ClientError.httpError r.status) ∧
     get_change_log_decode r = Except.error (ClientError.httpError r.status) ∧
     get_leaves_decode r = Except.error (ClientError.httpError r.status) ∧
     get_children_decode r = Except.error (ClientError.httpError r.status)) ∧
    get_contact_sites_decode ⟨500, [], some (Json.obj [("1", Json.null)])⟩ =
      Except.ok [((1 : Int), Json.null)] := by
  refine ⟨⟨?_, ?_, ?_, ?_, ?_⟩, ?_⟩
  · simp [get_root_id_decode, raise_for_status_fail r h1 h2]
  · simp [get_merge_log_decode, raise_for_status_fail r h1 h2]
  · simp [get_change_log_decode, raise_for_status_fail r h1 h2]
  · simp [get_leaves_decode, raise_for_status_fail r h1 h2]
  · simp [get_children_decode, raise_for_status_fail r h1 h2]
  · rfl

/-- Witness for C1 at the concrete response with status 500. -/
theorem c1_status_check_coverage_witness :
    (get_root_id_decode ⟨500, [], none⟩ = Except.error (ClientError.httpError 500) ∧
     get_merge_log_decode ⟨500, [], none⟩ = Except.error (ClientError.httpError 500) ∧
     get_change_log_decode ⟨500, [], none⟩ = Except.error (ClientError.httpError 500) ∧
     get_leaves_decode ⟨500, [], none⟩ = Except.error (ClientError.httpError 500) ∧
     get_children_decode ⟨500, [], none⟩ = Except.error (ClientError.httpError 500)) ∧
    get_contact_sites_decode ⟨500, [], some (Json.obj [("1", Json.null)])⟩ =
      Except.ok [((1 : Int), Json.null)] :=
  c1_status_check_coverage ⟨500, [], none⟩ (by decide) (by decide)

/-- C2 counterexample: with no explicit argument and no session default, the
request built by `get_root_id` (here in a UTC process at 2020-01-01T00:00:00)
**does** carry a `timestamp` query parameter — the current UTC time's epoch
value — so the parameter is not omitted. -/
theorem c2_counterexample :
    (get_root_id ⟨[], none, none, []⟩ 7 none 0 ⟨2020, 1, 1, 0, 0, 0, 0⟩).1.params =
      some [("timestamp", ParamVal.num 1577836800)] := by decide

/-- C2 amended: when `get_root_id` is called with no explicit timestamp and
the session has no default, the code falls back to `datetime.utcnow()` and
always sends a `timestamp` query parameter holding the `mktime` conversion
of the current UTC time; the parameter is never omitted. -/
theorem c2_timestamp_always_sent (m : List (String × FieldVal)) (eps : TemplateSet)
    (tn : Option String) (sv : Nat) (tz : Int) (now : PyDatetime) :
    (get_root_id ⟨m, none, tn, eps⟩ sv none tz now).1.params =
      some [("timestamp", ParamVal.num (mktime tz (timetuple now)))] := rfl

/-- C3 counterexample: for the bounds box `[[-1,10],[0,20],[0,30]]` (integer
pairs, as the claim allows), splitting the encoded string on `"_"` and then
on `"-"` does **not** recover the six integers: the minus sign of `-1` is
taken as a separator, yielding seven pieces. -/
theorem c3_counterexample :
    ((splitOnChar '_' (package_bounds [[-1, 10], [0, 20], [0, 30]])).map
        (splitOnChar '-')).flatten ≠
      [intToChars (-1), intToChars 10, intToChars 0, intToChars 20,
       intToChars 0, intToChars 30] := by decide

/-- C3 amended: for every bounds box of three (min,max) pairs of
*non-negative* integers, the encoder output re-splits (on `"_"`, then on
`"-"`) into exactly the six decimal strings of the original integers in
order, and parsing each piece recovers the original six integers. -/
theorem c3_package_bounds_roundtrip (a b c d e f : Nat) :
    (splitOnChar '_' (package_bounds
        [[(a : Int), (b : Int)], [(c : Int), (d : Int)], [(e : Int), (f : Int)]])).map
        (splitOnChar '-') =
      [[natToChars a, natToChars b], [natToChars c, natToChars d],
       [natToChars e, natToChars f]] ∧
    (((splitOnChar '_' (package_bounds
        [[(a : Int), (b : Int)], [(c : Int), (d : Int)], [(e : Int), (f : Int)]])).map
        (splitOnChar '-')).flatten).map parseNatChars =
      [some a, some b, some c, some d, some e, some f] := by
  have hpb : package_bounds
      [[(a : Int), (b : Int)], [(c : Int), (d : Int)], [(e : Int), (f : Int)]] =
      (natToChars a ++ '-' :: natToChars b) ++ '_' ::
        ((natToChars c ++ '-' :: natToChars d) ++ '_' ::
          (natToChars e ++ '-' :: natToChars f)) := by
    simp [package_bounds, joinSep, intToChars_natCast]
  have h1 : (splitOnChar '_' (package_bounds
      [[(a : Int), (b : Int)], [(c : Int), (d : Int)], [(e : Int), (f : Int)]])).map
      (splitOnChar '-') =
      [[natToChars a, natToChars b], [natToChars c, natToChars d],
       [natToChars e, natToChars f]] := by
    rw [hpb, splitOnChar_append '_' _ _ (underscore_not_mem_pair a b),
      splitOnChar_append '_' _ _ (underscore_not_mem_pair c d),
      splitOnChar_no_sep '_' _ (underscore_not_mem_pair e f)]
    simp [splitDash_pair]
  refine ⟨h1, ?_⟩
  rw [h1]
  simp [parseNatChars_natToChars]

/-- C4: for a successful response, `get_children` decodes a body made of
8-byte groups into exactly one unsigned 64-bit value per group, each
reconstructed little-endian from its consecutive 8 bytes (so byte-count/8
values in total), and fails with a `DecodeError` whenever the byte count is
not a multiple of 8. -/
theorem c4_get_children_binary (gs : List Tup8) (status : Nat) (j : Option Json)
    (bs : List Nat) (h : status < 400) :
    (get_children_decode ⟨status, bytesOfGroups gs, j⟩ =
        Except.ok (gs.map le64of8) ∧
      (gs.map le64of8).length = (bytesOfGroups gs).length / 8) ∧
    (bs.length % 8 ≠ 0 →
      get_children_decode ⟨status, bs, j⟩ = Except.error ClientError.decodeError) := by
  refine ⟨⟨?_, ?_⟩, ?_⟩
  · simp [get_children_decode, raise_for_status_ok ⟨status, bytesOfGroups gs, j⟩ h,
      frombuffer_uint64, length_bytesOfGroups, chunksLE64_bytesOfGroups,
      Nat.mul_mod_right]
  · simp [length_bytesOfGroups]
  · intro hb
    simp [get_children_decode, raise_for_status_ok ⟨status, bs, j⟩ h,
      frombuffer_uint64, hb]

/-- Witness for C4: 24 bytes decode to exactly the 3 little-endian values,
and a 23-byte body fails with a `DecodeError`. -/
theorem c4_get_children_binary_witness :
    get_children_decode
        ⟨200, bytesOfGroups [(1, 2, 3, 4, 5, 6, 7, 8), (9, 10, 11, 12, 13, 14, 15, 16),
          (255, 0, 0, 0, 0, 0, 0, 255)], none⟩ =
      Except.ok (([(1, 2, 3, 4, 5, 6, 7, 8), (9, 10, 11, 12, 13, 14, 15, 16),
          (255, 0, 0, 0, 0, 0, 0, 255)] : List Tup8).map le64of8) ∧
    get_children_decode ⟨200, List.replicate 23 0, none⟩ =
      Except.error ClientError.decodeError :=
  ⟨(c4_get_children_binary [(1, 2, 3, 4, 5, 6, 7, 8), (9, 10, 11, 12, 13, 14, 15, 16),
      (255, 0, 0, 0, 0, 0, 0, 255)] 200 none (List.replicate 23 0) (by decide)).1.1,
   (c4_get_children_binary [(1, 2, 3, 4, 5, 6, 7, 8), (9, 10, 11, 12, 13, 14, 15, 16),
      (255, 0, 0, 0, 0, 0, 0, 255)] 200 none (List.replicate 23 0) (by decide)).2
      (by decide)⟩

/-- C5: decoding a JSON-object response whose keys are decimal strings,
`get_contact_sites` returns the mapping with every key converted to the
corresponding integer and every value passed through unchanged. -/
theorem c5_contact_sites_int_keys (ps : List (Nat × Json)) (status : Nat)
    (content : List Nat) :
    get_contact_sites_decode ⟨status, content,
        some (Json.obj (ps.map (fun p => (String.mk (natToChars p.1), p.2))))⟩ =
      Except.ok (ps.map (fun p => ((p.1 : Int), p.2))) := by
  simp [get_contact_sites_decode, int_keys_decimal]

/-- C6 counterexample: a `leaf_ids` list holding the integer `2^63` (a valid
unsigned 64-bit value) is not returned with its value preserved: the signed
conversion `np.int64` fails with an `OverflowError` instead. -/
theorem c6_counterexample :
    get_leaves_decode ⟨200, [], some (Json.obj
        [("leaf_ids", Json.arr [Json.num 9223372036854775808])])⟩ =
      Except.error ClientError.overflowError ∧
    get_leaves_decode ⟨200, [], some (Json.obj
        [("leaf_ids", Json.arr [Json.num 9223372036854775808])])⟩ ≠
      Except.ok [9223372036854775808] := by
  have h1 : get_leaves_decode ⟨200, [], some (Json.obj
      [("leaf_ids", Json.arr [Json.num 9223372036854775808])])⟩ =
      Except.error ClientError.overflowError := by rfl
  refine ⟨h1, ?_⟩
  rw [h1]
  exact fun hEq => Except.noConfusion hEq

/-- C6 amended: for every successful JSON-object response whose `leaf_ids`
field is a list of integers that all fit the *signed* 64-bit range,
`get_leaves` returns exactly that list (one output per input, values
preserved); an out-of-range element fails the conversion instead. -/
theorem c6_get_leaves_int64 (status : Nat) (content : List Nat)
    (fields : List (String × Json)) (ns : List Int) (h : status < 400)
    (hf : alistGet fields "leaf_ids" = some (Json.arr (ns.map Json.num)))
    (hr : ∀ n ∈ ns, -9223372036854775808 ≤ n ∧ n < 9223372036854775808) :
    get_leaves_decode ⟨status, content, some (Json.obj fields)⟩ = Except.ok ns := by
  simp [get_leaves_decode, raise_for_status_ok ⟨status, content, _⟩ h, hf,
    np_int64_array_ok ns hr]

/-- Witness for C6 at a concrete one-element response. -/
theorem c6_get_leaves_int64_witness :
    get_leaves_decode ⟨200, [], some (Json.obj
        [("leaf_ids", Json.arr [Json.num 3])])⟩ = Except.ok [3] :=
  c6_get_leaves_int64 200 [] [("leaf_ids", Json.arr [Json.num 3])] [3]
    (by decide) rfl (by decide)

/-- C7 counterexample: in a process whose local timezone offset is +3600
seconds, the `timestamp` parameter sent for the naive UTC timestamp
2020-01-01T00:00:00 is **not** the calendar-time epoch value of that
timestamp — `time.mktime` subtracts the local offset. -/
theorem c7_counterexample :
    (get_root_id ⟨[], none, none, []⟩ 5 (some ⟨2020, 1, 1, 0, 0, 0, 0⟩) 3600
        ⟨2020, 1, 1, 0, 0, 0, 0⟩).1.params ≠
      some [("timestamp", ParamVal.num (timegm (timetuple ⟨2020, 1, 1, 0, 0, 0, 0⟩)))] := by
  decide

/-- C7 amended: for every timestamp supplied to `get_root_id` (explicit
argument, else the session default), the `timestamp` query parameter equals
`time.mktime` of its time tuple, i.e. the calendar-time epoch seconds of
the naive timestamp *minus the process-local timezone offset* (sub-second
precision dropped); only when that offset is zero (a UTC process) does it
equal the naive-UTC epoch seconds. -/
theorem c7_timestamp_mktime (m : List (String × FieldVal)) (eps : TemplateSet)
    (dt : Option PyDatetime) (tn : Option String) (sv : Nat) (tz : Int)
    (now t : PyDatetime) :
    (get_root_id ⟨m, dt, tn, eps⟩ sv (some t) tz now).1.params =
        some [("timestamp", ParamVal.num (timegm (timetuple t) - tz))] ∧
    (get_root_id ⟨m, some t, tn, eps⟩ sv none tz now).1.params =
        some [("timestamp", ParamVal.num (timegm (timetuple t) - tz))] ∧
    (get_root_id ⟨m, dt, tn, eps⟩ sv (some t) 0 now).1.params =
        some [("timestamp", ParamVal.num (timegm (timetuple t)))] := by
  refine ⟨rfl, rfl, ?_⟩
  simp [get_root_id, mktime]

/-- C8: constructing a client with an explicit API version that is not a key
of the version registry fails with a `ConfigurationError`; the construction
is pure, so no request value is ever produced. -/
theorem c8_unsupported_version (n : Nat) (registry : List (Nat × TemplateSet))
    (common : TemplateSet) (tn : Option String) (bm : List (String × FieldVal))
    (ts : Option PyDatetime) (h : lookupNat registry n = none) :
    chunkedGraphClient tn (VersionKey.v n) registry common bm ts =
      Except.error ClientError.configurationError := by
  simp [chunkedGraphClient, api_endpoints, resolve_api_version, h]

/-- Witness for C8: version 5 is absent from a registry holding versions
0 and 1. -/
theorem c8_unsupported_version_witness :
    chunkedGraphClient none (VersionKey.v 5) [(0, []), (1, [])] [] [] none =
      Except.error ClientError.configurationError :=
  c8_unsupported_version 5 [(0, []), (1, [])] [] none [] none (by decide)

/-- C9: every public operation returns the session state unchanged — each
call works on a copy of the default URL mapping and merges its per-call
field into the copy only — and the mapping used by a subsequent call equals
the session defaults plus only that call's own field, so nothing written
during one call is visible to the next. -/
theorem c9_default_mapping_preserved (st : ClientState) (sv rid nid : Nat)
    (ts : Option PyDatetime) (tz : Int) (now : PyDatetime)
    (b : Option (List (List Int))) (cp : Bool) :
    (get_root_id st sv ts tz now).2 = st ∧
    (get_merge_log st rid).2 = st ∧
    (get_change_log st rid).2 = st ∧
    (get_leaves st rid b).2 = st ∧
    (get_children st nid).2 = st ∧
    (get_contact_sites st rid b cp).2 = st ∧
    (get_children (get_root_id st sv ts tz now).2 nid).1.urlMapping =
      dictSet st.defaultUrlMapping "node_id" (FieldVal.idv nid) ∧
    (get_root_id (get_contact_sites st rid b cp).2 sv ts tz now).1.urlMapping =
      dictSet st.defaultUrlMapping "supervoxel_id" (FieldVal.idv sv) :=
  ⟨rfl, rfl, rfl, rfl, rfl, rfl, rfl, rfl⟩

/-- C10: versions 0, 1 and `'latest'` all dispatch to the single facade
implementation `ChunkedGraphClientLegacy`, any two supported keys dispatch
identically, and the dispatched operations are the very same functions. -/
theorem c10_single_dispatch :
    (client_mapping (VersionKey.v 0) = some ClientImpl.legacy ∧
     client_mapping (VersionKey.v 1) = some ClientImpl.legacy ∧
     client_mapping VersionKey.latest = some ClientImpl.legacy) ∧
    (∀ k₁ k₂ : VersionKey, (client_mapping k₁).isSome = true →
      (client_mapping k₂).isSome = true → client_mapping k₁ = client_mapping k₂) ∧
    (∀ i₁ i₂ : ClientImpl,
      dispatch_get_root_id i₁ = dispatch_get_root_id i₂ ∧
      dispatch_get_merge_log i₁ = dispatch_get_merge_log i₂ ∧
      dispatch_get_change_log i₁ = dispatch_get_change_log i₂ ∧
      dispatch_get_leaves i₁ = dispatch_get_leaves i₂ ∧
      dispatch_get_children i₁ = dispatch_get_children i₂ ∧
      dispatch_get_contact_sites i₁ = dispatch_get_contact_sites i₂) := by
  refine ⟨⟨rfl, rfl, rfl⟩, ?_, ?_⟩
  · have e : ∀ k, (client_mapping k).isSome = true →
        client_mapping k = some ClientImpl.legacy := by
      intro k hk
      cases k with
      | latest => rfl
      | v n =>
        match n with
        | 0 => rfl
        | 1 => rfl
        | n + 2 =>
          rw [show client_mapping (VersionKey.v (n + 2)) = none from rfl] at hk
          simp at hk
    intro k₁ k₂ h₁ h₂
    rw [e k₁ h₁, e k₂ h₂]
  · intro i₁ i₂
    cases i₁
    cases i₂
    exact ⟨rfl, rfl, rfl, rfl, rfl, rfl⟩

/-- Witness for C10: versions 0 and `'latest'` dispatch identically. -/
theorem c10_single_dispatch_witness :
    client_mapping (VersionKey.v 0) = client_mapping VersionKey.latest :=
  c10_single_dispatch.2.1 (VersionKey.v 0) VersionKey.latest rfl rfl

end ChunkedGraph
